import Mathlib

/-!
Verification of the warm-session flight-info server (src/server.py).

The development embeds the session-lifecycle core of the server:
the warm-session slot, the rewarm routine, the request handler and
its cleanup phase, and the startup sequence. External collaborators
(the ADK session store, the agent runtime's event stream, and the
stdlib JSON parser) are modelled by explicit outcome parameters, so
every code path of the embedded functions mirrors a path of the
Python source.
-/

/-- An ADK session handle: identity attributes the server uses
(`session.user_id` and `session.id`). -/
structure Session where
  user_id : String
  id : String
deriving DecidableEq, Repr

/-- A content part of an agent event (`part.text`; `none` models a part
without a `text` attribute). -/
structure TextPart where
  text : Option String
deriving DecidableEq, Repr

/-- The `content` attribute of an event, carrying its parts. -/
structure EventContent where
  parts : List TextPart
deriving DecidableEq, Repr

/-- An agent-runtime event: whether `is_final_response()` holds, and the
optional `content`. -/
structure Event where
  is_final_response : Bool
  content : Option EventContent
deriving DecidableEq, Repr

/-- One pull on the runtime's async event stream: either it yields an
event or it raises. -/
inductive StreamItem where
  | ev (e : Event)
  | raise (msg : String)
deriving DecidableEq, Repr

/-- Python truthiness of `getattr(part, "text", None)`: `None` and the
empty string are falsy. -/
def partHasText (p : TextPart) : Bool :=
  match p.text with
  | none => false
  | some t => decide (t ≠ "")

/-- The inner loop of lines 152-155 of server.py: scan the parts, take the
first truthy `part.text`, stop there. -/
def firstText : List TextPart → Option String
  | [] => none
  | p :: ps => if partHasText p then p.text else firstText ps

/-- Lines 151-155 of server.py: the text extracted from a final event.
`getattr(event, "content", None) and getattr(event.content, "parts", None)`
is falsy when `content` is absent or `parts` is empty. -/
def finalTextOfEvent (e : Event) : Option String :=
  match e.content with
  | none => none
  | some c =>
    match c.parts with
    | [] => none
    | p :: ps => firstText (p :: ps)

/-- The `async for` loop of lines 144-158 of server.py: pull items until one
raises (the exception propagates), or a final-response event arrives (break
with its extracted text), or the stream ends (`final_text` stays `None`). -/
def runEventLoop : List StreamItem → Except String (Option String)
  | [] => Except.ok none
  | StreamItem.raise msg :: _ => Except.error msg
  | StreamItem.ev e :: rest =>
    if e.is_final_response then Except.ok (finalTextOfEvent e)
    else runEventLoop rest

/-- An HTTP response as built by the handler: status, body, media type. -/
structure HttpResponse where
  status : Nat
  body : Option String
  media_type : Option String
deriving DecidableEq, Repr

/-- `Response(status_code=204)` of line 174: no body, no media type. -/
def resp204 : HttpResponse :=
  { status := 204, body := none, media_type := none }

/-- Python truthiness of `final_text` (line 172): falsy iff `None` or `""`. -/
def textTruthy : Option String → Bool
  | none => false
  | some t => decide (t ≠ "")

/-- Lines 172-187 of server.py: `if not final_text` gives the 204 response;
otherwise a 200 whose media type is `application/json` exactly when
`json.loads` succeeds (the stdlib parser is the parameter `jp`), else
`text/plain`. -/
def buildResponse (jp : String → Bool) : Option String → HttpResponse
  | none => resp204
  | some t =>
    if t = "" then resp204
    else
      { status := 200, body := some t,
        media_type := some (if jp t then "application/json" else "text/plain") }

/-- Whether an `Except` outcome is a success. -/
def exceptOk {ε α : Type} : Except ε α → Bool
  | Except.ok _ => true
  | Except.error _ => false

/-- Observable actions of one request, in the order they happen. -/
inductive ReqAction where
  | takeWarm (s : Session)
  | createSync (s : Session)
  | respond (r : HttpResponse)
  | deleteAttempt (s : Session) (succeeded : Bool)
  | launchRewarm
  | raiseServerError (msg : String)
deriving DecidableEq, Repr

/-- Line 205 of server.py: a rewarm task is launched only when
`_background_warm_task is None or _background_warm_task.done()`.
The tracked task handle is `none`, or `some done`. -/
def shouldLaunchRewarm : Option Bool → Bool
  | none => true
  | some done => done

/-- Result of the scheduled cleanup closure. -/
structure CleanupResult where
  actions : List ReqAction
  bgAfter : Option Bool
deriving DecidableEq, Repr

/-- Lines 190-209 of server.py, `cleanup_and_warm`: first a deletion attempt
of the consumed session (its failure caught and logged, line 199-200), then,
if no rewarm task is tracked as pending, a new one is launched and tracked. -/
def cleanup_and_warm (s : Session) (delRes : Except String Unit)
    (bg : Option Bool) : CleanupResult :=
  let delAct := ReqAction.deleteAttempt s (exceptOk delRes)
  if shouldLaunchRewarm bg then
    { actions := [delAct, ReqAction.launchRewarm], bgAfter := some false }
  else
    { actions := [delAct], bgAfter := bg }

/-- Decidable equality for `Except` outcomes. -/
instance {ε α : Type} [DecidableEq ε] [DecidableEq α] : DecidableEq (Except ε α)
  | Except.ok a, Except.ok b =>
    if h : a = b then Decidable.isTrue (congrArg Except.ok h)
    else Decidable.isFalse (fun hh => h (Except.ok.inj hh))
  | Except.ok _, Except.error _ => Decidable.isFalse (fun hh => Except.noConfusion hh)
  | Except.error _, Except.ok _ => Decidable.isFalse (fun hh => Except.noConfusion hh)
  | Except.error a, Except.error b =>
    if h : a = b then Decidable.isTrue (congrArg Except.error h)
    else Decidable.isFalse (fun hh => h (Except.error.inj hh))

/-- The outcome of one `/flight` request: its trace of actions, the slot and
background-task state afterwards, and the response or propagated error. -/
structure HandlerResult where
  trace : List ReqAction
  slotAfter : Option Session
  bgAfter : Option Bool
  response : Except String HttpResponse
deriving DecidableEq, Repr

/-- Lines 140-214 of server.py after acquisition: run the event loop; on a
stream error delete the consumed session best-effort and re-raise (lines
159-170); on a falsy `final_text` return 204 immediately (lines 172-174,
note: no cleanup is scheduled on this path); otherwise build the response
and schedule `cleanup_and_warm` to run after the response is sent. -/
def runAndRespond (s : Session) (acq : ReqAction) (bg : Option Bool)
    (delRes : Except String Unit) (jp : String → Bool)
    (stream : List StreamItem) : HandlerResult :=
  match runEventLoop stream with
  | Except.error e =>
    { trace := [acq, ReqAction.deleteAttempt s (exceptOk delRes),
                ReqAction.raiseServerError e],
      slotAfter := none, bgAfter := bg, response := Except.error e }
  | Except.ok ft =>
    if textTruthy ft then
      let r := buildResponse jp ft
      let c := cleanup_and_warm s delRes bg
      { trace := [acq, ReqAction.respond r] ++ c.actions,
        slotAfter := none, bgAfter := c.bgAfter, response := Except.ok r }
    else
      { trace := [acq, ReqAction.respond resp204],
        slotAfter := none, bgAfter := bg, response := Except.ok resp204 }

/-- Lines 120-214 of server.py, the `/flight` handler. Acquisition (lines
129-138, under `_session_lock`): take the warm session if present, else
create one synchronously — a failure of that create propagates to the
caller. `createRes` is the session store's outcome for the fallback create,
`delRes` the outcome of whichever `delete_session` call the path performs,
`jp` whether `json.loads` accepts a string, `stream` the runtime's events. -/
def get_flight_info (slot : Option Session) (bg : Option Bool)
    (createRes : Except String Session) (delRes : Except String Unit)
    (jp : String → Bool) (stream : List StreamItem) : HandlerResult :=
  match slot with
  | some s => runAndRespond s (ReqAction.takeWarm s) bg delRes jp stream
  | none =>
    match createRes with
    | Except.error e =>
      { trace := [ReqAction.raiseServerError e],
        slotAfter := none, bgAfter := bg, response := Except.error e }
    | Except.ok s => runAndRespond s (ReqAction.createSync s) bg delRes jp stream

/-- The session a request ends up owning after the acquisition phase, if
acquisition succeeds. -/
def acquiredSession (slot : Option Session)
    (createRes : Except String Session) : Option Session :=
  match slot with
  | some s => some s
  | none =>
    match createRes with
    | Except.ok s => some s
    | Except.error _ => none

/-- Result of one run of the rewarm routine. -/
structure RewarmResult where
  slotAfter : Option Session
  deletionAttempted : Option Session
deriving DecidableEq, Repr

/-- The body of `_create_and_set_session` (lines 96-116 of server.py) before
the outer `except`: create a session (fallible, `c`), then under the lock
either install it into the empty slot or delete the surplus just created;
the delete has its own inner `try/except` so its outcome `d` is swallowed. -/
def rewarmBody (slot : Option Session) (c : Except String Session)
    (d : Except String Unit) : Except String RewarmResult :=
  match c with
  | Except.error e => Except.error e
  | Except.ok s =>
    match slot with
    | none => Except.ok { slotAfter := some s, deletionAttempted := none }
    | some w =>
      match d with
      | _ => Except.ok { slotAfter := some w, deletionAttempted := some s }

/-- Lines 90-118 of server.py, `_create_and_set_session`: the whole body is
wrapped in `try/except Exception` (line 117), so any failure is logged and
the routine returns with the slot unchanged. -/
def create_and_set_session (slot : Option Session) (c : Except String Session)
    (d : Except String Unit) : RewarmResult :=
  match rewarmBody slot c d with
  | Except.ok r => r
  | Except.error _ => { slotAfter := slot, deletionAttempted := none }

/-- Python truthiness of `os.getenv("GOOGLE_API_KEY")`: absent or empty is
falsy. -/
def keyTruthy : Option String → Bool
  | none => false
  | some s => decide (s ≠ "")

/-- Lines 78-86 of server.py, the startup part of `lifespan`: raise a
`RuntimeError` when the credential is falsy, otherwise run the rewarm
routine synchronously once and reach the `yield` with the resulting slot. -/
def lifespan_start (key : Option String) (slot : Option Session)
    (c : Except String Session) (d : Except String Unit) :
    Except String (Option Session) :=
  if keyTruthy key then
    Except.ok (create_and_set_session slot c d).slotAfter
  else
    Except.error "GOOGLE_API_KEY not set. Put it in .env or export it."

/-- Spec-side description of the result payload (section 4.2 RUNNING of the
spec): the first text-bearing content part of the first event that
self-reports as the final response; empty when there is no final event. -/
def specResultPayload (events : List Event) : Option String :=
  match events.find? (fun e => e.is_final_response) with
  | none => none
  | some e =>
    match e.content with
    | none => none
    | some c => ((c.parts).find? partHasText).bind (fun p => p.text)

/-- Global shared state of the cooperative system: the warm-session slot
(`_shared_session`, holding at most a session identity), the session
store's fresh-identity counter, the identities acquired by requests so
far (most recent first), the identities created by rewarm invocations but
not yet installed or discarded, and the identities that have received a
deletion attempt as surplus. Session identities are the store's, which
issues a fresh one per create. -/
structure SysState where
  slot : Option Nat
  nextId : Nat
  acquired : List Nat
  pending : List Nat
  deleted : List Nat
deriving DecidableEq, Repr

/-- The state at process start: empty slot, nothing created. -/
def initState : SysState :=
  { slot := none, nextId := 0, acquired := [], pending := [], deleted := [] }

/-- One atomic step of the cooperative interleaving. Every read-then-write
sequence on the slot sits inside `async with _session_lock` in server.py,
so it is one step here; the rewarm's `create_session` call (line 98) is
outside the lock and is its own step.

* `reqTake` — lines 136-138: a request finds the slot occupied, takes the
  session and empties the slot.
* `reqCreate` — lines 130-135: a request finds the slot empty and creates
  a session synchronously, still under the lock.
* `warmCreate` — lines 97-101: a rewarm invocation creates a fresh session
  outside the lock; it is now pending installation.
* `warmInstallEmpty` — lines 102-105: under the lock, the pending session
  is installed into the empty slot.
* `warmInstallOccupied` — lines 106-116: under the lock, the slot is
  already occupied, so the pending surplus session gets a deletion
  attempt instead. -/
inductive SysStep : SysState → SysState → Prop
  | reqTake (st : SysState) (sid : Nat) (h : st.slot = some sid) :
      SysStep st { st with slot := none, acquired := sid :: st.acquired }
  | reqCreate (st : SysState) (h : st.slot = none) :
      SysStep st { st with acquired := st.nextId :: st.acquired,
                           nextId := st.nextId + 1 }
  | warmCreate (st : SysState) :
      SysStep st { st with pending := st.nextId :: st.pending,
                           nextId := st.nextId + 1 }
  | warmInstallEmpty (st : SysState) (sid : Nat) (h : sid ∈ st.pending)
      (h2 : st.slot = none) :
      SysStep st { st with slot := some sid, pending := st.pending.erase sid }
  | warmInstallOccupied (st : SysState) (sid : Nat) (h : sid ∈ st.pending)
      (h2 : st.slot ≠ none) :
      SysStep st { st with pending := st.pending.erase sid,
                           deleted := sid :: st.deleted }

/-- Reflexive-transitive closure of a step relation: the reachable states. -/
inductive Reach (step : SysState → SysState → Prop) : SysState → SysState → Prop
  | refl (s : SysState) : Reach step s s
  | tail {a b c : SysState} : Reach step a b → step b c → Reach step a c

/-- A step of the system in which no request acquires a session: exactly the
rewarm-routine steps, running any number of rewarm invocations
concurrently. -/
def WarmOnly (a b : SysState) : Prop :=
  SysStep a b ∧ b.acquired = a.acquired

/-- The slot/identity invariant maintained by every step of the system. -/
structure SlotInv (st : SysState) : Prop where
  acq_lt : ∀ i ∈ st.acquired, i < st.nextId
  pend_lt : ∀ i ∈ st.pending, i < st.nextId
  slot_lt : ∀ i, st.slot = some i → i < st.nextId
  acq_nodup : st.acquired.Nodup
  slot_not_acq : ∀ i, st.slot = some i → i ∉ st.acquired
  pend_not_acq : ∀ i ∈ st.pending, i ∉ st.acquired
  pend_nodup : st.pending.Nodup
  slot_not_pend : ∀ i, st.slot = some i → i ∉ st.pending

theorem slotInv_init : SlotInv initState := by
  constructor <;> simp [initState]

theorem slotInv_step {a b : SysState} (inv : SlotInv a) (s : SysStep a b) :
    SlotInv b := by
  cases s with
  | reqTake sid h =>
    constructor
    · intro i hi
      rcases List.mem_cons.1 hi with rfl | hi
      · exact inv.slot_lt i h
      · exact inv.acq_lt i hi
    · exact inv.pend_lt
    · intro i hi
      exact Option.noConfusion hi
    · exact List.nodup_cons.2 ⟨inv.slot_not_acq sid h, inv.acq_nodup⟩
    · intro i hi
      exact Option.noConfusion hi
    · intro i hi hmem
      rcases List.mem_cons.1 hmem with rfl | hmem
      · exact inv.slot_not_pend i h hi
      · exact inv.pend_not_acq i hi hmem
    · exact inv.pend_nodup
    · intro i hi
      exact Option.noConfusion hi
  | reqCreate h =>
    constructor
    · intro i hi
      rcases List.mem_cons.1 hi with rfl | hi
      · exact Nat.lt_succ_self _
      · exact Nat.lt_succ_of_lt (inv.acq_lt i hi)
    · intro i hi
      exact Nat.lt_succ_of_lt (inv.pend_lt i hi)
    · intro i hi
      exact Nat.lt_succ_of_lt (inv.slot_lt i hi)
    · exact List.nodup_cons.2
        ⟨fun hmem => Nat.lt_irrefl _ (inv.acq_lt _ hmem), inv.acq_nodup⟩
    · intro i hi
      rw [h] at hi
      exact Option.noConfusion hi
    · intro i hi hmem
      rcases List.mem_cons.1 hmem with rfl | hmem
      · exact Nat.lt_irrefl _ (inv.pend_lt _ hi)
      · exact inv.pend_not_acq i hi hmem
    · exact inv.pend_nodup
    · intro i hi
      rw [h] at hi
      exact Option.noConfusion hi
  | warmCreate =>
    constructor
    · intro i hi
      exact Nat.lt_succ_of_lt (inv.acq_lt i hi)
    · intro i hi
      rcases List.mem_cons.1 hi with rfl | hi
      · exact Nat.lt_succ_self _
      · exact Nat.lt_succ_of_lt (inv.pend_lt i hi)
    · intro i hi
      exact Nat.lt_succ_of_lt (inv.slot_lt i hi)
    · exact inv.acq_nodup
    · exact inv.slot_not_acq
    · intro i hi hmem
      rcases List.mem_cons.1 hi with rfl | hi
      · exact Nat.lt_irrefl _ (inv.acq_lt _ hmem)
      · exact inv.pend_not_acq i hi hmem
    · exact List.nodup_cons.2
        ⟨fun hmem => Nat.lt_irrefl _ (inv.pend_lt _ hmem), inv.pend_nodup⟩
    · intro i hi hmem
      rcases List.mem_cons.1 hmem with rfl | hmem
      · exact Nat.lt_irrefl _ (inv.slot_lt _ hi)
      · exact inv.slot_not_pend i hi hmem
  | warmInstallEmpty sid h h2 =>
    constructor
    · exact inv.acq_lt
    · intro i hi
      exact inv.pend_lt i (List.mem_of_mem_erase hi)
    · intro i hi
      cases hi
      exact inv.pend_lt sid h
    · exact inv.acq_nodup
    · intro i hi
      cases hi
      exact inv.pend_not_acq sid h
    · intro i hi
      exact inv.pend_not_acq i (List.mem_of_mem_erase hi)
    · exact inv.pend_nodup.erase sid
    · intro i hi hmem
      cases hi
      exact ((inv.pend_nodup.mem_erase_iff).1 hmem).1 rfl
  | warmInstallOccupied sid h h2 =>
    constructor
    · exact inv.acq_lt
    · intro i hi
      exact inv.pend_lt i (List.mem_of_mem_erase hi)
    · exact inv.slot_lt
    · exact inv.acq_nodup
    · exact inv.slot_not_acq
    · intro i hi
      exact inv.pend_not_acq i (List.mem_of_mem_erase hi)
    · exact inv.pend_nodup.erase sid
    · intro i hi hmem
      exact inv.slot_not_pend i hi (List.mem_of_mem_erase hmem)

theorem slotInv_reach {st : SysState} (h : Reach SysStep initState st) :
    SlotInv st := by
  induction h with
  | refl => exact slotInv_init
  | tail _ hs ih => exact slotInv_step ih hs

/-- How many sessions the slot holds (zero or one). -/
def slotCount (st : SysState) : Nat :=
  match st.slot with
  | none => 0
  | some _ => 1

/-- The invariant of runs that consist only of rewarm-routine steps from the
empty initial state: every created session is accounted for exactly once —
installed in the slot, pending, or surplus with a deletion attempt — and a
deletion attempt can only have happened once the slot was occupied. -/
structure WarmInv (st : SysState) : Prop where
  count : st.nextId = slotCount st + st.pending.length + st.deleted.length
  no_del_when_empty : st.slot = none → st.deleted = []
  pend_nodup : st.pending.Nodup
  pend_lt : ∀ i ∈ st.pending, i < st.nextId
  del_lt : ∀ i ∈ st.deleted, i < st.nextId
  slot_not_pend : ∀ i, st.slot = some i → i ∉ st.pending
  slot_not_del : ∀ i, st.slot = some i → i ∉ st.deleted
  del_nodup : st.deleted.Nodup
  pend_del_disj : ∀ i ∈ st.pending, i ∉ st.deleted
  slot_lt : ∀ i, st.slot = some i → i < st.nextId

theorem warmInv_init : WarmInv initState := by
  constructor <;> simp [initState, slotCount]

theorem warmInv_step {a b : SysState} (inv : WarmInv a) (s : WarmOnly a b) :
    WarmInv b := by
  obtain ⟨step, hacq⟩ := s
  cases step with
  | reqTake sid h =>
    exfalso
    have := congrArg List.length hacq
    simp at this
  | reqCreate h =>
    exfalso
    have := congrArg List.length hacq
    simp at this
  | warmCreate =>
    constructor
    · have := inv.count
      simp only [List.length_cons, slotCount]
      simp only [slotCount] at this
      omega
    · intro h
      exact inv.no_del_when_empty h
    · exact List.nodup_cons.2
        ⟨fun hmem => Nat.lt_irrefl _ (inv.pend_lt _ hmem), inv.pend_nodup⟩
    · intro i hi
      rcases List.mem_cons.1 hi with rfl | hi
      · exact Nat.lt_succ_self _
      · exact Nat.lt_succ_of_lt (inv.pend_lt i hi)
    · intro i hi
      exact Nat.lt_succ_of_lt (inv.del_lt i hi)
    · intro i hi hmem
      rcases List.mem_cons.1 hmem with rfl | hmem
      · exact Nat.lt_irrefl _ (inv.slot_lt _ hi)
      · exact inv.slot_not_pend i hi hmem
    · intro i hi
      exact inv.slot_not_del i hi
    · exact inv.del_nodup
    · intro i hi hmem
      rcases List.mem_cons.1 hi with rfl | hi
      · exact Nat.lt_irrefl _ (inv.del_lt _ hmem)
      · exact inv.pend_del_disj i hi hmem
    · intro i hi
      exact Nat.lt_succ_of_lt (inv.slot_lt i hi)
  | warmInstallEmpty sid h h2 =>
    constructor
    · have hc := inv.count
      have hlen : (a.pending.erase sid).length = a.pending.length - 1 :=
        List.length_erase_of_mem h
      have hpos : 0 < a.pending.length := List.length_pos.2 (List.ne_nil_of_mem h)
      simp only [slotCount, h2] at hc
      simp only [slotCount, hlen]
      omega
    · intro hcontra
      exact Option.noConfusion hcontra
    · exact inv.pend_nodup.erase sid
    · intro i hi
      exact inv.pend_lt i (List.mem_of_mem_erase hi)
    · exact inv.del_lt
    · intro i hi hmem
      cases hi
      exact ((inv.pend_nodup.mem_erase_iff).1 hmem).1 rfl
    · intro i hi
      cases hi
      exact inv.pend_del_disj sid h
    · exact inv.del_nodup
    · intro i hi
      exact inv.pend_del_disj i (List.mem_of_mem_erase hi)
    · intro i hi
      cases hi
      exact inv.pend_lt sid h
  | warmInstallOccupied sid h h2 =>
    constructor
    · have hc := inv.count
      have hlen : (a.pending.erase sid).length = a.pending.length - 1 :=
        List.length_erase_of_mem h
      have hpos : 0 < a.pending.length := List.length_pos.2 (List.ne_nil_of_mem h)
      have hs : slotCount a = 1 := by
        unfold slotCount
        cases hsl : a.slot with
        | none => exact absurd hsl h2
        | some x => rfl
      have hs2 : slotCount { a with pending := a.pending.erase sid,
                                    deleted := sid :: a.deleted } = 1 := hs
      simp only [List.length_cons, hlen, hs2]
      rw [hs] at hc
      omega
    · intro hcontra
      exact absurd hcontra h2
    · exact inv.pend_nodup.erase sid
    · intro i hi
      exact inv.pend_lt i (List.mem_of_mem_erase hi)
    · intro i hi
      rcases List.mem_cons.1 hi with rfl | hi
      · exact inv.pend_lt i h
      · exact inv.del_lt i hi
    · intro i hi hmem
      exact inv.slot_not_pend i hi (List.mem_of_mem_erase hmem)
    · intro i hi hmem
      rcases List.mem_cons.1 hmem with rfl | hmem
      · exact inv.slot_not_pend i hi h
      · exact inv.slot_not_del i hi hmem
    · exact List.nodup_cons.2 ⟨inv.pend_del_disj sid h, inv.del_nodup⟩
    · intro i hi hmem
      rcases List.mem_cons.1 hmem with rfl | hmem
      · exact ((inv.pend_nodup.mem_erase_iff).1 hi).1 rfl
      · exact inv.pend_del_disj i (List.mem_of_mem_erase hi) hmem
    · exact inv.slot_lt

theorem warmInv_reach {st : SysState} (h : Reach WarmOnly initState st) :
    WarmInv st := by
  induction h with
  | refl => exact warmInv_init
  | tail _ hs ih => exact warmInv_step ih hs

theorem firstText_ne_empty {ps : List TextPart} {t : String}
    (h : firstText ps = some t) : t ≠ "" := by
  induction ps with
  | nil => exact absurd h (by simp [firstText])
  | cons p ps ih =>
    by_cases hp : partHasText p
    · rw [firstText, if_pos hp] at h
      unfold partHasText at hp
      cases hpt : p.text with
      | none => rw [hpt] at hp; exact absurd hp (by simp)
      | some u =>
        rw [hpt] at h hp
        cases h
        simpa using hp
    · rw [firstText, if_neg hp] at h
      exact ih h

theorem finalTextOfEvent_ne_empty {e : Event} {t : String}
    (h : finalTextOfEvent e = some t) : t ≠ "" := by
  obtain ⟨fin, cont⟩ := e
  cases cont with
  | none => exact absurd h (by simp [finalTextOfEvent])
  | some c =>
    obtain ⟨ps⟩ := c
    cases ps with
    | nil => exact absurd h (by simp [finalTextOfEvent])
    | cons p ps =>
      have h2 : firstText (p :: ps) = some t := h
      exact firstText_ne_empty h2

theorem runEventLoop_ok_ne_empty {stream : List StreamItem} {t : String}
    (h : runEventLoop stream = Except.ok (some t)) : t ≠ "" := by
  induction stream with
  | nil =>
    rw [runEventLoop] at h
    exact absurd (Except.ok.inj h) (by simp)
  | cons it rest ih =>
    cases it with
    | raise msg => exact absurd h (by simp [runEventLoop])
    | ev e =>
      rw [runEventLoop] at h
      by_cases hf : e.is_final_response
      · rw [if_pos hf] at h
        exact finalTextOfEvent_ne_empty (Except.ok.inj h)
      · rw [if_neg hf] at h
        exact ih h

theorem firstText_eq_find (ps : List TextPart) :
    firstText ps = (ps.find? partHasText).bind (fun p => p.text) := by
  induction ps with
  | nil => simp [firstText]
  | cons p ps ih =>
    by_cases hp : partHasText p
    · rw [firstText, if_pos hp, List.find?_cons_of_pos _ hp]
      simp
    · rw [firstText, if_neg hp, List.find?_cons_of_neg _ hp]
      exact ih

theorem finalTextOfEvent_eq_spec (e : Event) :
    finalTextOfEvent e =
      match e.content with
      | none => none
      | some c => ((c.parts).find? partHasText).bind (fun p => p.text) := by
  obtain ⟨fin, cont⟩ := e
  cases cont with
  | none => rfl
  | some c =>
    obtain ⟨ps⟩ := c
    cases ps with
    | nil => rfl
    | cons p ps => exact firstText_eq_find (p :: ps)

theorem runEventLoop_eq_spec (events : List Event) :
    runEventLoop (events.map StreamItem.ev) =
      Except.ok (specResultPayload events) := by
  induction events with
  | nil => simp [runEventLoop, specResultPayload]
  | cons e es ih =>
    by_cases hf : e.is_final_response
    · simp only [List.map_cons, runEventLoop, if_pos hf]
      unfold specResultPayload
      rw [List.find?_cons_of_pos _ (by simpa using hf)]
      rw [finalTextOfEvent_eq_spec]
    · simp only [List.map_cons, runEventLoop, if_neg hf]
      unfold specResultPayload
      rw [List.find?_cons_of_neg _ (by simpa using hf)]
      exact ih

theorem runEventLoop_skips_nonfinal (es1 es2 : List StreamItem)
    (h : ∀ it ∈ es1, ∃ e, it = StreamItem.ev e ∧ e.is_final_response = false) :
    runEventLoop (es1 ++ es2) = runEventLoop es2 := by
  induction es1 with
  | nil => simp
  | cons it rest ih =>
    obtain ⟨e, rfl, hf⟩ := h it (List.mem_cons_self it rest)
    rw [List.cons_append, runEventLoop, if_neg (by simp [hf])]
    exact ih (fun x hx => h x (List.mem_cons_of_mem _ hx))

theorem buildResponse_falsy {jp : String → Bool} {ft : Option String}
    (h : textTruthy ft = false) : buildResponse jp ft = resp204 := by
  cases ft with
  | none => rfl
  | some t =>
    have ht : t = "" := by simpa [textTruthy] using h
    simp [buildResponse, ht]

theorem runAndRespond_response_ok (s : Session) (acq : ReqAction)
    (bg : Option Bool) (delRes : Except String Unit) (jp : String → Bool)
    {stream : List StreamItem} {ft : Option String}
    (hrun : runEventLoop stream = Except.ok ft) :
    (runAndRespond s acq bg delRes jp stream).response =
      Except.ok (buildResponse jp ft) := by
  unfold runAndRespond
  rw [hrun]
  by_cases hft : textTruthy ft
  · simp [hft]
  · simp only [Bool.not_eq_true] at hft
    simp [hft, buildResponse_falsy hft]

/-- C3: if the agent runtime's event stream raises mid-consumption, the
handler attempts to delete the consumed session (whatever the deletion's
own outcome), re-raises the original error to the caller, leaves the slot
empty exactly as acquisition left it, and launches no rewarm task and
leaves the rewarm-task marker untouched on this path. -/
theorem c3_stream_error_path (slot : Option Session) (bg : Option Bool)
    (createRes : Except String Session) (delRes : Except String Unit)
    (jp : String → Bool) (stream : List StreamItem) (s : Session) (msg : String)
    (hacq : acquiredSession slot createRes = some s)
    (hstream : runEventLoop stream = Except.error msg) :
    (get_flight_info slot bg createRes delRes jp stream).response =
      Except.error msg ∧
    (get_flight_info slot bg createRes delRes jp stream).slotAfter = none ∧
    (get_flight_info slot bg createRes delRes jp stream).bgAfter = bg ∧
    ReqAction.deleteAttempt s (exceptOk delRes) ∈
      (get_flight_info slot bg createRes delRes jp stream).trace ∧
    ReqAction.launchRewarm ∉
      (get_flight_info slot bg createRes delRes jp stream).trace := by
  cases slot with
  | some w =>
    have hw : w = s := by simpa [acquiredSession] using hacq
    subst hw
    simp [get_flight_info, runAndRespond, hstream]
  | none =>
    cases createRes with
    | error e => simp [acquiredSession] at hacq
    | ok w =>
      have hw : w = s := by simpa [acquiredSession] using hacq
      subst hw
      simp [get_flight_info, runAndRespond, hstream]

theorem c3_witness :
    acquiredSession (some { user_id := "anonymous_user", id := "warm1" })
        (Except.ok { user_id := "anonymous_user", id := "sync1" }) =
      some { user_id := "anonymous_user", id := "warm1" } ∧
    runEventLoop [StreamItem.raise "boom"] = Except.error "boom" ∧
    ((get_flight_info (some { user_id := "anonymous_user", id := "warm1" }) none
        (Except.ok { user_id := "anonymous_user", id := "sync1" })
        (Except.error "delete failed") (fun _ => false)
        [StreamItem.raise "boom"]).response = Except.error "boom" ∧
     (get_flight_info (some { user_id := "anonymous_user", id := "warm1" }) none
        (Except.ok { user_id := "anonymous_user", id := "sync1" })
        (Except.error "delete failed") (fun _ => false)
        [StreamItem.raise "boom"]).slotAfter = none ∧
     (get_flight_info (some { user_id := "anonymous_user", id := "warm1" }) none
        (Except.ok { user_id := "anonymous_user", id := "sync1" })
        (Except.error "delete failed") (fun _ => false)
        [StreamItem.raise "boom"]).bgAfter = none ∧
     ReqAction.deleteAttempt { user_id := "anonymous_user", id := "warm1" }
         (exceptOk (Except.error "delete failed" : Except String Unit)) ∈
       (get_flight_info (some { user_id := "anonymous_user", id := "warm1" }) none
        (Except.ok { user_id := "anonymous_user", id := "sync1" })
        (Except.error "delete failed") (fun _ => false)
        [StreamItem.raise "boom"]).trace ∧
     ReqAction.launchRewarm ∉
       (get_flight_info (some { user_id := "anonymous_user", id := "warm1" }) none
        (Except.ok { user_id := "anonymous_user", id := "sync1" })
        (Except.error "delete failed") (fun _ => false)
        [StreamItem.raise "boom"]).trace) :=
  ⟨rfl, rfl,
    c3_stream_error_path (some { user_id := "anonymous_user", id := "warm1" }) none
      (Except.ok { user_id := "anonymous_user", id := "sync1" })
      (Except.error "delete failed") (fun _ => false)
      [StreamItem.raise "boom"] { user_id := "anonymous_user", id := "warm1" }
      "boom" rfl rfl⟩

/-- C4: for a request whose agent run completes, the handler responds 204
with no body when no final text was produced, and otherwise 200 with the
final text as body and media type application/json exactly when the text
parses as JSON, text/plain otherwise. -/
theorem c4_response_formatting (slot : Option Session) (bg : Option Bool)
    (createRes : Except String Session) (delRes : Except String Unit)
    (jp : String → Bool) (stream : List StreamItem) (s : Session)
    (ft : Option String)
    (hacq : acquiredSession slot createRes = some s)
    (hrun : runEventLoop stream = Except.ok ft) :
    (get_flight_info slot bg createRes delRes jp stream).response =
      Except.ok (buildResponse jp ft) ∧
    (ft = none → buildResponse jp ft = resp204 ∧ resp204.status = 204 ∧
      resp204.body = none) ∧
    (∀ t, ft = some t →
      buildResponse jp ft =
        { status := 200, body := some t,
          media_type :=
            some (if jp t then "application/json" else "text/plain") }) := by
  refine ⟨?_, ?_, ?_⟩
  · cases slot with
    | some w =>
      have hw : w = s := by simpa [acquiredSession] using hacq
      subst hw
      exact runAndRespond_response_ok w (ReqAction.takeWarm w) bg delRes jp hrun
    | none =>
      cases createRes with
      | error e => simp [acquiredSession] at hacq
      | ok w =>
        have hw : w = s := by simpa [acquiredSession] using hacq
        subst hw
        exact runAndRespond_response_ok w (ReqAction.createSync w) bg delRes jp hrun
  · intro hft
    subst hft
    exact ⟨rfl, rfl, rfl⟩
  · intro t hft
    subst hft
    have ht : t ≠ "" := runEventLoop_ok_ne_empty hrun
    simp [buildResponse, ht]

/-- Concrete fixtures used by the witnesses. -/
def sessWarm : Session := { user_id := "anonymous_user", id := "warm1" }

def sessSync : Session := { user_id := "anonymous_user", id := "sync1" }

def evFinalText : Event :=
  { is_final_response := true,
    content := some { parts := [{ text := some "no flight found" }] } }

def evFinalNoContent : Event :=
  { is_final_response := true, content := none }

def evProgress : Event :=
  { is_final_response := false, content := none }

def streamText : List StreamItem := [StreamItem.ev evFinalText]

theorem c4_witness :
    acquiredSession (some sessWarm) (Except.ok sessSync) = some sessWarm ∧
    runEventLoop streamText = Except.ok (some "no flight found") ∧
    ((get_flight_info (some sessWarm) none (Except.ok sessSync)
        (Except.ok ()) (fun _ => false) streamText).response =
      Except.ok (buildResponse (fun _ => false) (some "no flight found")) ∧
    (some "no flight found" = none →
      buildResponse (fun _ => false) (some "no flight found") = resp204 ∧
        resp204.status = 204 ∧ resp204.body = none) ∧
    (∀ t, some "no flight found" = some t →
      buildResponse (fun _ => false) (some "no flight found") =
        { status := 200, body := some t,
          media_type :=
            some (if (fun (_ : String) => false) t then "application/json"
                  else "text/plain") })) :=
  ⟨rfl, rfl,
    c4_response_formatting (some sessWarm) none (Except.ok sessSync)
      (Except.ok ()) (fun _ => false) streamText sessWarm
      (some "no flight found") rfl rfl⟩

/-- C5: for any event sequence, the loop's result payload equals the first
text-bearing content part of the first event that self-reports as the final
response; non-final events ahead of it are ignored; and a sequence without
a final-response event yields an empty payload. -/
theorem c5_extraction_matches_spec (events : List Event)
    (es1 es2 : List StreamItem) :
    runEventLoop (events.map StreamItem.ev) =
      Except.ok (specResultPayload events) ∧
    ((∀ e ∈ events, e.is_final_response = false) →
      specResultPayload events = none) ∧
    ((∀ it ∈ es1, ∃ e, it = StreamItem.ev e ∧ e.is_final_response = false) →
      runEventLoop (es1 ++ es2) = runEventLoop es2) := by
  refine ⟨runEventLoop_eq_spec events, ?_, runEventLoop_skips_nonfinal es1 es2⟩
  intro h
  have hfind : events.find? (fun e => e.is_final_response) = none :=
    List.find?_eq_none.2 (fun x hx => by simp [h x hx])
  unfold specResultPayload
  rw [hfind]

theorem c5_witness :
    runEventLoop ([evProgress, evFinalText].map StreamItem.ev) =
      Except.ok (specResultPayload [evProgress, evFinalText]) ∧
    specResultPayload [evProgress, evFinalText] = some "no flight found" ∧
    runEventLoop ([StreamItem.ev evProgress] ++ streamText) =
      runEventLoop streamText := by
  refine ⟨(c5_extraction_matches_spec [evProgress, evFinalText]
    [StreamItem.ev evProgress] streamText).1, rfl, ?_⟩
  refine (c5_extraction_matches_spec [evProgress, evFinalText]
    [StreamItem.ev evProgress] streamText).2.2 ?_
  intro it hit
  rw [List.mem_singleton] at hit
  subst hit
  exact ⟨evProgress, rfl, rfl⟩

/-- C6: evaluation of the handler at a request whose agent run completes
with a final event carrying no text. The response is the successful 204,
yet the trace contains no deletion attempt for the consumed session and no
rewarm launch: lines 172-174 of server.py return before `cleanup_and_warm`
is ever scheduled, contradicting the documented per-request
delete-then-rewarm cleanup. The cleanup closure itself (lines 190-209),
when it does run, performs the deletion attempt first and then launches a
rewarm task exactly when none is pending, as the two closing conjuncts
evaluate. -/
theorem c6_204_path_skips_cleanup :
    (get_flight_info (some sessWarm) none (Except.ok sessSync) (Except.ok ())
        (fun _ => false) [StreamItem.ev evFinalNoContent]).response =
      Except.ok resp204 ∧
    (∀ b, ReqAction.deleteAttempt sessWarm b ∉
      (get_flight_info (some sessWarm) none (Except.ok sessSync) (Except.ok ())
        (fun _ => false) [StreamItem.ev evFinalNoContent]).trace) ∧
    ReqAction.launchRewarm ∉
      (get_flight_info (some sessWarm) none (Except.ok sessSync) (Except.ok ())
        (fun _ => false) [StreamItem.ev evFinalNoContent]).trace ∧
    cleanup_and_warm sessWarm (Except.error "delete failed") none =
      { actions := [ReqAction.deleteAttempt sessWarm false,
                    ReqAction.launchRewarm],
        bgAfter := some false } ∧
    cleanup_and_warm sessWarm (Except.ok ()) (some false) =
      { actions := [ReqAction.deleteAttempt sessWarm true],
        bgAfter := some false } := by
  refine ⟨rfl, ?_, ?_, rfl, rfl⟩
  · intro b
    cases b <;> decide
  · decide

/-- C7: a request that arrives to an empty slot creates a session
synchronously under the lock and completes with it; the post-response
rewarm decision is identical to the warm-path one, so none is skipped for
taking the fallback; a failing fallback create propagates to the caller;
and the response never depends on a session-store delete outcome, nor, on
the warm path, on the create outcome. -/
theorem c7_fallback_path (bg : Option Bool) (delRes delRes2 : Except String Unit)
    (jp : String → Bool) (stream : List StreamItem) (s : Session) (e : String)
    (ft : Option String) (hrun : runEventLoop stream = Except.ok ft) :
    (get_flight_info none bg (Except.ok s) delRes jp stream).response =
      Except.ok (buildResponse jp ft) ∧
    ReqAction.createSync s ∈
      (get_flight_info none bg (Except.ok s) delRes jp stream).trace ∧
    (ReqAction.launchRewarm ∈
        (get_flight_info none bg (Except.ok s) delRes jp stream).trace ↔
      ReqAction.launchRewarm ∈
        (get_flight_info (some s) bg (Except.ok s) delRes jp stream).trace) ∧
    (get_flight_info none bg (Except.error e) delRes jp stream).response =
      Except.error e ∧
    (get_flight_info (some s) bg (Except.error e) delRes jp stream).response =
      (get_flight_info (some s) bg (Except.ok s) delRes jp stream).response ∧
    (get_flight_info none bg (Except.ok s) delRes jp stream).response =
      (get_flight_info none bg (Except.ok s) delRes2 jp stream).response := by
  refine ⟨runAndRespond_response_ok s (ReqAction.createSync s) bg delRes jp hrun,
    ?_, ?_, rfl, rfl, ?_⟩
  · show ReqAction.createSync s ∈
      (runAndRespond s (ReqAction.createSync s) bg delRes jp stream).trace
    unfold runAndRespond
    rw [hrun]
    by_cases hft : textTruthy ft <;> simp [hft]
  · show ReqAction.launchRewarm ∈
        (runAndRespond s (ReqAction.createSync s) bg delRes jp stream).trace ↔
      ReqAction.launchRewarm ∈
        (runAndRespond s (ReqAction.takeWarm s) bg delRes jp stream).trace
    unfold runAndRespond
    rw [hrun]
    by_cases hft : textTruthy ft <;> simp [hft]
  · exact (runAndRespond_response_ok s (ReqAction.createSync s) bg delRes jp
      hrun).trans
      (runAndRespond_response_ok s (ReqAction.createSync s) bg delRes2 jp
        hrun).symm

theorem c7_witness :
    runEventLoop streamText = Except.ok (some "no flight found") ∧
    ((get_flight_info none none (Except.ok sessSync) (Except.ok ())
        (fun _ => false) streamText).response =
      Except.ok (buildResponse (fun _ => false) (some "no flight found")) ∧
    ReqAction.createSync sessSync ∈
      (get_flight_info none none (Except.ok sessSync) (Except.ok ())
        (fun _ => false) streamText).trace ∧
    (ReqAction.launchRewarm ∈
        (get_flight_info none none (Except.ok sessSync) (Except.ok ())
          (fun _ => false) streamText).trace ↔
      ReqAction.launchRewarm ∈
        (get_flight_info (some sessSync) none (Except.ok sessSync)
          (Except.ok ()) (fun _ => false) streamText).trace) ∧
    (get_flight_info none none (Except.error "create failed") (Except.ok ())
        (fun _ => false) streamText).response =
      Except.error "create failed" ∧
    (get_flight_info (some sessSync) none (Except.error "create failed")
        (Except.ok ()) (fun _ => false) streamText).response =
      (get_flight_info (some sessSync) none (Except.ok sessSync)
        (Except.ok ()) (fun _ => false) streamText).response ∧
    (get_flight_info none none (Except.ok sessSync) (Except.ok ())
        (fun _ => false) streamText).response =
      (get_flight_info none none (Except.ok sessSync)
        (Except.error "delete failed") (fun _ => false) streamText).response) :=
  ⟨rfl,
    c7_fallback_path none (Except.ok ()) (Except.error "delete failed")
      (fun _ => false) streamText sessSync "create failed"
      (some "no flight found") rfl⟩

/-- C8: with the credential absent (or empty, which Python treats the same)
startup raises the fatal configuration error; with it present, the rewarm
routine runs synchronously once, so from an empty slot with a working
session store, a warm session is installed in the slot before the first
request is accepted. -/
theorem c8_startup_warms_slot (key : Option String) (slot : Option Session)
    (c : Except String Session) (d : Except String Unit) (s : Session)
    (hkey : keyTruthy key = true) (hc : c = Except.ok s) (hslot : slot = none) :
    lifespan_start key slot c d = Except.ok (some s) ∧
    (∀ key2 slot2 c2 d2, keyTruthy key2 = false →
      lifespan_start key2 slot2 c2 d2 =
        Except.error "GOOGLE_API_KEY not set. Put it in .env or export it.") := by
  constructor
  · subst hc
    subst hslot
    simp [lifespan_start, hkey, create_and_set_session, rewarmBody]
  · intro key2 slot2 c2 d2 h2
    simp [lifespan_start, h2]

theorem c8_witness :
    keyTruthy (some "test-key") = true ∧
    ((Except.ok sessWarm : Except String Session) = Except.ok sessWarm) ∧
    ((none : Option Session) = none) ∧
    (lifespan_start (some "test-key") none (Except.ok sessWarm)
        (Except.ok ()) = Except.ok (some sessWarm) ∧
    (∀ key2 slot2 c2 d2, keyTruthy key2 = false →
      lifespan_start key2 slot2 c2 d2 =
        Except.error "GOOGLE_API_KEY not set. Put it in .env or export it.")) :=
  ⟨rfl, rfl, rfl,
    c8_startup_warms_slot (some "test-key") none (Except.ok sessWarm)
      (Except.ok ()) sessWarm rfl rfl rfl⟩

/-- C9: the rewarm routine never raises — with the credential present,
startup completes for every outcome of the session store's create and
delete calls; a failed create leaves the slot as it was (so later requests
use the fallback path); and a startup abort implies the credential check
itself failed. -/
theorem c9_rewarm_never_raises (key : Option String) (slot : Option Session)
    (c : Except String Session) (d : Except String Unit)
    (hkey : keyTruthy key = true) :
    exceptOk (lifespan_start key slot c d) = true ∧
    (∀ e, c = Except.error e →
      create_and_set_session slot c d =
        { slotAfter := slot, deletionAttempted := none }) ∧
    (∀ key2 slot2 c2 d2 e2,
      lifespan_start key2 slot2 c2 d2 = Except.error e2 →
      keyTruthy key2 = false) := by
  refine ⟨?_, ?_, ?_⟩
  · simp [lifespan_start, hkey, exceptOk]
  · intro e he
    subst he
    rfl
  · intro key2 slot2 c2 d2 e2 h2
    by_contra hk
    rw [Bool.not_eq_false] at hk
    simp [lifespan_start, hk] at h2

theorem c9_witness :
    keyTruthy (some "test-key") = true ∧
    (exceptOk (lifespan_start (some "test-key") none
        (Except.error "create failed") (Except.error "delete failed")) = true ∧
    (∀ e, (Except.error "create failed" : Except String Session) =
        Except.error e →
      create_and_set_session none (Except.error "create failed")
          (Except.error "delete failed") =
        { slotAfter := none, deletionAttempted := none }) ∧
    (∀ key2 slot2 c2 d2 e2,
      lifespan_start key2 slot2 c2 d2 = Except.error e2 →
      keyTruthy key2 = false)) :=
  ⟨rfl,
    c9_rewarm_never_raises (some "test-key") none
      (Except.error "create failed") (Except.error "delete failed") rfl⟩

theorem firstText_none_of_no_text {ps : List TextPart}
    (h : ∀ p ∈ ps, p.text = none ∨ p.text = some "") : firstText ps = none := by
  induction ps with
  | nil => rfl
  | cons p ps ih =>
    have hp : partHasText p = false := by
      rcases h p (List.mem_cons_self p ps) with h1 | h1 <;>
        simp [partHasText, h1]
    simp only [firstText, hp, Bool.false_eq_true, if_false]
    exact ih (fun q hq => h q (List.mem_cons_of_mem _ hq))

/-- C10: a final event whose parts all lack text or carry empty-string text
extracts to no payload, exactly like a final event with no content; an
empty-string part is skipped by the extraction scan; and an empty-string
payload yields the 204 no-content response, the same response as no
payload, never a 200 with empty body. -/
theorem c10_empty_text_like_no_text (jp : String → Bool) (ps : List TextPart)
    (h : ∀ p ∈ ps, p.text = none ∨ p.text = some "") :
    finalTextOfEvent
        { is_final_response := true, content := some { parts := ps } } = none ∧
    finalTextOfEvent { is_final_response := true, content := none } = none ∧
    (∀ rest : List TextPart,
      firstText ({ text := some "" } :: rest) = firstText rest) ∧
    buildResponse jp (some "") = resp204 ∧
    buildResponse jp (some "") = buildResponse jp none := by
  refine ⟨?_, rfl, ?_, ?_, ?_⟩
  · cases ps with
    | nil => rfl
    | cons p ps =>
      have h2 : finalTextOfEvent
          { is_final_response := true, content := some { parts := p :: ps } } =
          firstText (p :: ps) := rfl
      rw [h2]
      exact firstText_none_of_no_text h
  · intro rest
    simp [firstText, partHasText]
  · simp [buildResponse]
  · simp [buildResponse]

theorem c10_witness :
    (∀ p ∈ [({ text := none } : TextPart), { text := some "" }],
      p.text = none ∨ p.text = some "") ∧
    (finalTextOfEvent
        { is_final_response := true,
          content := some
            { parts := [({ text := none } : TextPart), { text := some "" }] } } =
      none ∧
    finalTextOfEvent { is_final_response := true, content := none } = none ∧
    (∀ rest : List TextPart,
      firstText ({ text := some "" } :: rest) = firstText rest) ∧
    buildResponse (fun _ => true) (some "") = resp204 ∧
    buildResponse (fun _ => true) (some "") =
      buildResponse (fun _ => true) none) :=
  ⟨by decide,
    c10_empty_text_like_no_text (fun _ => true)
      [({ text := none } : TextPart), { text := some "" }] (by decide)⟩

/-- C1: in every reachable state of the interleaved system — requests
taking or synchronously creating sessions and rewarm invocations creating
and installing them, with each read-then-write slot sequence atomic under
the shared lock — the slot holds at most one session, the acquired session
identities are pairwise distinct, and the session sitting in the slot was
never handed to a request. -/
theorem c1_slot_exclusive_and_acquisitions_distinct (st : SysState)
    (h : Reach SysStep initState st) :
    st.slot.toList.length ≤ 1 ∧ st.acquired.Nodup ∧
      (∀ i, st.slot = some i → i ∉ st.acquired) := by
  have inv := slotInv_reach h
  refine ⟨?_, inv.acq_nodup, inv.slot_not_acq⟩
  cases st.slot <;> simp

/-- Intermediate states of the concrete interleavings exercised below. -/
def stWarm1 : SysState :=
  { slot := none, nextId := 1, acquired := [], pending := [0], deleted := [] }

def stInstalled : SysState :=
  { slot := some 0, nextId := 1, acquired := [], pending := [], deleted := [] }

def stTaken : SysState :=
  { slot := none, nextId := 1, acquired := [0], pending := [], deleted := [] }

def stTwoAcquired : SysState :=
  { slot := none, nextId := 2, acquired := [1, 0], pending := [], deleted := [] }

def stTwoPending : SysState :=
  { slot := none, nextId := 2, acquired := [], pending := [1, 0], deleted := [] }

def stOneInstalled : SysState :=
  { slot := some 0, nextId := 2, acquired := [], pending := [1], deleted := [] }

def stFinalWarm : SysState :=
  { slot := some 0, nextId := 2, acquired := [], pending := [], deleted := [1] }

theorem c1_witness :
    stTwoAcquired.slot.toList.length ≤ 1 ∧ stTwoAcquired.acquired.Nodup ∧
      (∀ i, stTwoAcquired.slot = some i → i ∉ stTwoAcquired.acquired) := by
  have h1 : SysStep initState stWarm1 := SysStep.warmCreate initState
  have h2 : SysStep stWarm1 stInstalled :=
    SysStep.warmInstallEmpty stWarm1 0 (by simp [stWarm1]) rfl
  have h3 : SysStep stInstalled stTaken := SysStep.reqTake stInstalled 0 rfl
  have h4 : SysStep stTaken stTwoAcquired := SysStep.reqCreate stTaken rfl
  exact c1_slot_exclusive_and_acquisitions_distinct stTwoAcquired
    (Reach.tail (Reach.tail (Reach.tail (Reach.tail (Reach.refl _) h1) h2) h3)
      h4)

/-- C2: after any interleaving of rewarm invocations from the empty initial
state in which every invocation has finished (nothing pending) and at least
one create happened, the slot holds exactly one session, every one of the
other created sessions — pairwise distinct surplus — received a deletion
attempt, and the installed session received none. -/
theorem c2_rewarm_idempotent (st : SysState)
    (h : Reach WarmOnly initState st)
    (hdone : st.pending = []) (hn : 1 ≤ st.nextId) :
    st.slot.isSome = true ∧ st.deleted.length + 1 = st.nextId ∧
      st.deleted.Nodup ∧ (∀ i, st.slot = some i → i ∉ st.deleted) := by
  have inv := warmInv_reach h
  have hc := inv.count
  rw [hdone] at hc
  cases hsl : st.slot with
  | none =>
    exfalso
    have hd : st.deleted = [] := inv.no_del_when_empty hsl
    have hz : slotCount st = 0 := by
      unfold slotCount
      rw [hsl]
    rw [hd, hz] at hc
    simp at hc
    omega
  | some x =>
    have ho : slotCount st = 1 := by
      unfold slotCount
      rw [hsl]
    rw [ho] at hc
    simp at hc
    refine ⟨rfl, by omega, inv.del_nodup, ?_⟩
    intro i hi
    cases hi
    exact inv.slot_not_del x hsl

theorem c2_witness :
    stFinalWarm.pending = [] ∧ 1 ≤ stFinalWarm.nextId ∧
    (stFinalWarm.slot.isSome = true ∧
      stFinalWarm.deleted.length + 1 = stFinalWarm.nextId ∧
      stFinalWarm.deleted.Nodup ∧
      (∀ i, stFinalWarm.slot = some i → i ∉ stFinalWarm.deleted)) := by
  have h1 : WarmOnly initState stWarm1 := ⟨SysStep.warmCreate initState, rfl⟩
  have h2 : WarmOnly stWarm1 stTwoPending := ⟨SysStep.warmCreate stWarm1, rfl⟩
  have h3 : WarmOnly stTwoPending stOneInstalled :=
    ⟨SysStep.warmInstallEmpty stTwoPending 0 (by simp [stTwoPending]) rfl, rfl⟩
  have h4 : WarmOnly stOneInstalled stFinalWarm :=
    ⟨SysStep.warmInstallOccupied stOneInstalled 1 (by simp [stOneInstalled])
      (by simp [stOneInstalled]), rfl⟩
  exact ⟨rfl, by decide,
    c2_rewarm_idempotent stFinalWarm
      (Reach.tail (Reach.tail (Reach.tail (Reach.tail (Reach.refl _) h1) h2)
        h3) h4)
      rfl (by decide)⟩
